import Mathlib

set_option maxHeartbeats 1000000

/-!
Shallow embedding of the media-generation orchestrator of the repository:
`generateVideoWithExtension` and `withRetry` from `src/services/geminiService.ts`
and `src/unnamed/part_004` (the same code also appears in `src/unnamed/part_001`),
the polling loop of `generateVideo` from `src/unnamed/part_003` / `part_000`,
and the `handleGenerateImage` guard from `src/App.tsx`.

The remote service is modelled by an environment that scripts the outcome of
each submit-and-poll phase; executions produce an explicit trace of events
(progress emissions, network submissions, sleeps) so that counting claims can
be stated about them.
-/

/-- Helper for JS `String.prototype.includes`: `leadsWith pat s` is true when
`pat` is an initial segment of `s`. -/
def leadsWith : List Char → List Char → Bool
  | [], _ => true
  | _ :: _, [] => false
  | a :: ta, b :: tb => (a == b) && leadsWith ta tb

/-- `occursIn pat s`: `pat` occurs contiguously inside `s`. -/
def occursIn (pat : List Char) : List Char → Bool
  | [] => pat.isEmpty
  | c :: cs => leadsWith pat (c :: cs) || occursIn pat cs

/-- JS `s.includes(pat)`. -/
def strContains (s pat : String) : Bool := occursIn pat.data s.data

/-- A thrown JS error, identified by its `message`. -/
structure Err where
  message : String
deriving DecidableEq

deriving instance DecidableEq for Except

/-- The transient-error test of `withRetry` (`src/unnamed/part_004` line 16):
retry only when the message contains a 429 / RESOURCE_EXHAUSTED / 500 / 503
signature. -/
def isTransientMsg (msg : String) : Bool :=
  strContains msg "429" || strContains msg "RESOURCE_EXHAUSTED" ||
    strContains msg "500" || strContains msg "503"

/-- Events observable from one `withRetry` execution: the 0-based index of
each invocation of the wrapped operation, and each backoff sleep with its
duration in milliseconds. -/
inductive REv
  | invoke (i : Nat)
  | sleep (ms : Nat)
deriving DecidableEq

/-- The index sequence `i, i+1, ..., i+n-1` traversed by a JS
`for (let k = i; k < i + n; k++)` loop. -/
def idxList : Nat → Nat → List Nat
  | _, 0 => []
  | i, n + 1 => i :: idxList (i + 1) n

/-- Core loop of `withRetry` (`src/unnamed/part_004` lines 7–26; byte-identical
copies in `part_001`).  The wrapped operation is modelled as a function from
the 0-based attempt index to its outcome.  On a transient failure of attempt
`i` the code sleeps `initialDelay * 2 ^ i` and continues — note that this
sleep happens even on the last iteration, after which the stored `lastError`
is re-thrown.  `Option.getD` covers the JS corner case `maxRetries = 0`,
where the loop body never runs and an undefined `lastError` would be thrown. -/
def withRetryGo {α : Type} (op : Nat → Except Err α) (d : Nat) :
    List Nat → Option Err → List REv × Except Err α
  | [], le => ([], Except.error (le.getD { message := "" }))
  | i :: rest, _ =>
    match op i with
    | Except.ok a => ([REv.invoke i], Except.ok a)
    | Except.error e =>
      if isTransientMsg e.message then
        let r := withRetryGo op d rest (some e)
        (REv.invoke i :: REv.sleep (d * 2 ^ i) :: r.1, r.2)
      else ([REv.invoke i], Except.error e)

/-- `withRetry fn maxRetries initialDelay` with explicit policy parameters. -/
def withRetryWith {α : Type} (op : Nat → Except Err α) (maxRetries d : Nat) :
    List REv × Except Err α :=
  withRetryGo op d (idxList 0 maxRetries) none

/-- `withRetry` under its default policy `maxRetries = 3`, `initialDelay = 2000`. -/
def withRetry {α : Type} (op : Nat → Except Err α) : List REv × Except Err α :=
  withRetryWith op 3 2000

/-- The durations of the sleep events of a retry trace, in order. -/
def sleepDurations : List REv → List Nat
  | [] => []
  | REv.sleep d :: rest => d :: sleepDurations rest
  | _ :: rest => sleepDurations rest

/-- Number of invocations of the wrapped operation recorded in a retry trace. -/
def countInvokes (evs : List REv) : Nat :=
  List.countP (fun e => match e with | REv.invoke _ => true | _ => false) evs

/-- A produced video artifact: an identity tag (to track seeds across rounds)
and its `uri` field, which the service may leave unset. -/
structure Video where
  vidId : Nat
  uri : Option String
deriving DecidableEq

/-- A remote operation object as the polling loops observe it: its `done`
flag and `response?.generatedVideos?.[0]?.video`. -/
structure Operation where
  done : Bool
  video : Option Video
deriving DecidableEq

/-- Events of one polling loop execution: interval sleeps and status checks. -/
inductive PollEv
  | sleep (ms : Nat)
  | check
deriving DecidableEq

/-- The polling loop of `generateVideoWithExtension`
(`src/services/geminiService.ts` lines 308–311, identically `part_004`
lines 320–324): `while (!operation.done) { await sleep(10000); operation =
getVideosOperation(...) }`.  `checks` scripts the successive results of
`getVideosOperation`; if it runs out while the operation still reports not
done, the real loop would keep polling forever, which the model truncates
(the claims only concern terminating status sequences). -/
def pollLoop : Operation → List Operation → List PollEv × Operation
  | op, checks =>
    if op.done then ([], op)
    else
      match checks with
      | [] => ([], op)
      | c :: rest =>
        let r := pollLoop c rest
        (PollEv.sleep 10000 :: PollEv.check :: r.1, r.2)

/-- The polling loop of `generateVideo` in `src/unnamed/part_003` lines
256–266 (identical in `part_000`): each `getVideosOperation` call may throw;
an error whose message contains "Requested entity was not found" is replaced
by a fresh `Error("API_KEY_EXPIRED")`, any other error is rethrown as-is.
`none` models the real loop still running when the scripted statuses run
out. -/
def part003Poll : Operation → List (Except Err Operation) → Option (Except Err Operation)
  | op, checks =>
    if op.done then some (Except.ok op)
    else
      match checks with
      | [] => none
      | Except.error e :: _ =>
        if strContains e.message "Requested entity was not found" then
          some (Except.error { message := "API_KEY_EXPIRED" })
        else some (Except.error e)
      | Except.ok op2 :: rest => part003Poll op2 rest

/-- `VideoResolution` from `src/types.ts`. -/
inductive Res
  | r720
  | r1080
deriving DecidableEq

/-- `VideoAspectRatio` from `src/types.ts` (`16:9` and `9:16`). -/
inductive AR
  | a169
  | a916
deriving DecidableEq

/-- The `config` argument of `generateVideoWithExtension`. -/
structure VideoConfig where
  resolution : Res
  aspectRatio : AR
  targetDuration : Nat
deriving DecidableEq

/-- The seed of one generation request: the reference image bytes for the
initial phase (`image:` field, possibly `undefined`), or a previously
produced video for a continuation (`video:` field, `undefined` when the
previous round yielded nothing). -/
inductive Seed
  | image (bytes : Option String)
  | vid (v : Option Video)
deriving DecidableEq

/-- Pipeline events: progress emissions and network submissions.  A
submission records its seed and the resolution it requests. -/
inductive PEv
  | progressStart
  | progressExtNeeded
  | progressExt (i : Nat)
  | progressDispatch
  | submitInitial (s : Seed) (r : Res)
  | submitExt (i : Nat) (s : Seed) (r : Res)
deriving DecidableEq

/-- Scripted remote outcomes for one pipeline run: the video yielded by the
completed initial phase and by each completed continuation round (`none`
models `operation.response?.generatedVideos?.[0]?.video` being undefined). -/
structure Env where
  initResult : Option Video
  extResult : Nat → Option Video

/-- The result produced by the phase preceding continuation round `i`:
the initial phase for round 0, round `i-1` otherwise. -/
def prevRes (env : Env) : Nat → Option Video
  | 0 => env.initResult
  | i + 1 => env.extResult i

/-- Number of continuation (extension) submissions in a pipeline trace. -/
def countExt (evs : List PEv) : Nat :=
  List.countP (fun e => match e with | PEv.submitExt _ _ _ => true | _ => false) evs

/-- Number of network submissions (initial or continuation) in a trace. -/
def countSubmits (evs : List PEv) : Nat :=
  List.countP (fun e => match e with
    | PEv.submitInitial _ _ => true
    | PEv.submitExt _ _ _ => true
    | _ => false) evs

/-- Characters of `cs` up to (excluding) the first comma. -/
def upToComma : List Char → List Char
  | [] => []
  | c :: cs => if c == ',' then [] else c :: upToComma cs

/-- Characters of `cs` after the first comma, or `none` if there is no comma. -/
def afterComma : List Char → Option (List Char)
  | [] => none
  | c :: cs => if c == ',' then some cs else afterComma cs

/-- JS `s.split(',')[1]`: the second comma-separated field of `s`,
`undefined` (here `none`) when `s` contains no comma. -/
def jsSplitComma1 (s : String) : Option String :=
  (afterComma s.data).map (fun cs => String.mk (upToComma cs))

/-- `src/unnamed/part_004` line 300:
`ref.includes(',') ? ref.split(',')[1] : ref`. -/
def imageData004 (s : String) : String :=
  match afterComma s.data with
  | some cs => String.mk (upToComma cs)
  | none => s

namespace GeminiTs

/-- `Math.floor((targetDuration - 5) / 7)` from
`src/services/geminiService.ts` line 318; truncated natural subtraction and
division agree with the JS floor on the natural durations the app passes. -/
def extensionsNeeded (t : Nat) : Nat := (t - 5) / 7

/-- The extension `for` loop of `src/services/geminiService.ts` lines
319–340: each round emits a progress message, submits a continuation request
at 720p seeded with the current `finalVideo`, and reads the polled result;
a round yielding no usable video `break`s out, keeping the previous video. -/
def extLoop (ext : Nat → Option Video) : List Nat → Video → List PEv × Video
  | [], cur => ([], cur)
  | i :: rest, cur =>
    match ext i with
    | some v =>
      let r := extLoop ext rest v
      (PEv.progressExt i :: PEv.submitExt i (Seed.vid (some cur)) Res.r720 :: r.1, r.2)
    | none => ([PEv.progressExt i, PEv.submitExt i (Seed.vid (some cur)) Res.r720], cur)

/-- `generateVideoWithExtension` from `src/services/geminiService.ts` lines
270–351.  `env` scripts the video yielded by each submit-and-poll phase (the
poll loops themselves are `pollLoop`); the final blob download and
object-URL creation are browser I/O and are elided, the function resolving
to the download link it would fetch. -/
def generateVideoWithExtension (_prompt ref : String) (cfg : VideoConfig) (env : Env) :
    List PEv × Except Err String :=
  let imageData := jsSplitComma1 ref
  let evs0 := [PEv.progressStart, PEv.submitInitial (Seed.image imageData) cfg.resolution]
  match env.initResult with
  | none => (evs0, Except.error { message := "Video generation failed." })
  | some v0 =>
    let ext :=
      if 7 < cfg.targetDuration ∧ cfg.resolution = Res.r720 then
        extLoop env.extResult (idxList 0 (extensionsNeeded cfg.targetDuration)) v0
      else ([], v0)
    match ext.2.uri with
    | none => (evs0 ++ ext.1, Except.error { message := "Download link missing." })
    | some link => (evs0 ++ ext.1 ++ [PEv.progressDispatch], Except.ok link)

end GeminiTs

namespace Part004

/-- `Math.ceil((targetDuration - 5) / 7)` from `src/unnamed/part_004` line
331, expressed on naturals: for `t > 5`, `(t - 5 + 6) / 7` is exactly the
ceiling of `(t - 5) / 7`. -/
def rounds (t : Nat) : Nat := (t - 5 + 6) / 7

/-- The extension `for` loop of `src/unnamed/part_004` lines 333–351: every
planned round runs (there is no break); the continuation is seeded with the
current `finalVideo`, which each round overwrites — possibly with
`undefined` — by its own polled result. -/
def extLoop (ext : Nat → Option Video) : List Nat → Option Video → List PEv × Option Video
  | [], cur => ([], cur)
  | i :: rest, cur =>
    let r := extLoop ext rest (ext i)
    (PEv.progressExt i :: PEv.submitExt i (Seed.vid cur) Res.r720 :: r.1, r.2)

/-- `generateVideoWithExtension` from `src/unnamed/part_004` lines 289–359
(the same code appears twice more in `part_001`).  The `&key=...` query
suffix appended from `process.env` is elided from the returned link. -/
def generateVideoWithExtension (_prompt ref : String) (cfg : VideoConfig) (env : Env) :
    List PEv × Except Err String :=
  let evs0 := [PEv.progressStart,
    PEv.submitInitial (Seed.image (some (imageData004 ref))) cfg.resolution]
  let v0 := env.initResult
  let ext :=
    if 5 < cfg.targetDuration then
      let r := extLoop env.extResult (idxList 0 (rounds cfg.targetDuration)) v0
      (PEv.progressExtNeeded :: r.1, r.2)
    else (([] : List PEv), v0)
  let outcome : Except Err String :=
    match ext.2 with
    | none => Except.error { message := "Video generation failed: Operation returned empty result." }
    | some v =>
      match v.uri with
      | none =>
        Except.error { message := "Video generation failed: Operation returned empty result." }
      | some link => Except.ok link
  (evs0 ++ ext.1, outcome)

end Part004

/-- Outcome of a UI handler: either a user-facing error message was set and
the handler returned, or the generation service was invoked. -/
inductive UIOutcome
  | errorSet (msg : String)
  | invoked (prompt : String) (refImg : Option String)
deriving DecidableEq

/-- `handleGenerateImage` from `src/App.tsx` lines 636–645: it reads
`editablePrompts[idx]`; an undefined or empty prompt sets a UI error and
returns without calling the generation service; otherwise the service is
invoked with the prompt and the data of the first uploaded image item, if
any.  `images` is the uploaded media list as `(isImage, data)` pairs. -/
def handleGenerateImage (editablePrompts : List String) (idx : Nat)
    (images : List (Bool × String)) : UIOutcome :=
  let prompt := (editablePrompts.get? idx).getD ""
  if prompt = "" then UIOutcome.errorSet "提示词内容不能为空"
  else UIOutcome.invoked prompt ((images.find? (fun p => p.1)).map (fun p => p.2))

/-- A concrete video artifact used in witnesses. -/
def vidW (i : Nat) : Video := { vidId := i, uri := some "u" }

/-- Environment in which every phase yields a usable video. -/
def envAllOk : Env := { initResult := some (vidW 0), extResult := fun i => some (vidW (i + 1)) }

/-- Environment in which the initial phase yields a usable video but every
continuation round yields nothing. -/
def envExtFail : Env := { initResult := some (vidW 0), extResult := fun _ => none }

/-- A 720p config at target duration `t`. -/
def cfg720 (t : Nat) : VideoConfig :=
  { resolution := Res.r720, aspectRatio := AR.a169, targetDuration := t }

/-- A 1080p config at target duration `t`. -/
def cfg1080 (t : Nat) : VideoConfig :=
  { resolution := Res.r1080, aspectRatio := AR.a169, targetDuration := t }

/-- Operation failing transiently twice, then succeeding, for witnesses. -/
def opW : Nat → Except Err Nat := fun i =>
  if i = 0 then Except.error { message := "429" }
  else if i = 1 then Except.error { message := "503" } else Except.ok 7

/-- Operation that always fails with a transient 429 signature. -/
def opT : Nat → Except Err Nat := fun _ => Except.error { message := "429" }

/-! Helper lemmas. -/

theorem countExt_cons_progressStart (l : List PEv) :
    countExt (PEv.progressStart :: l) = countExt l := by
  simp [countExt, List.countP_cons]

theorem countExt_cons_progressExtNeeded (l : List PEv) :
    countExt (PEv.progressExtNeeded :: l) = countExt l := by
  simp [countExt, List.countP_cons]

theorem countExt_cons_progressExt (i : Nat) (l : List PEv) :
    countExt (PEv.progressExt i :: l) = countExt l := by
  simp [countExt, List.countP_cons]

theorem countExt_cons_progressDispatch (l : List PEv) :
    countExt (PEv.progressDispatch :: l) = countExt l := by
  simp [countExt, List.countP_cons]

theorem countExt_cons_submitInitial (s : Seed) (r : Res) (l : List PEv) :
    countExt (PEv.submitInitial s r :: l) = countExt l := by
  simp [countExt, List.countP_cons]

theorem countExt_cons_submitExt (i : Nat) (s : Seed) (r : Res) (l : List PEv) :
    countExt (PEv.submitExt i s r :: l) = countExt l + 1 := by
  simp [countExt, List.countP_cons]

theorem countExt_append (l1 l2 : List PEv) :
    countExt (l1 ++ l2) = countExt l1 + countExt l2 := by
  simp [countExt, List.countP_append]

theorem countExt_nil : countExt [] = 0 := rfl

/-- The backoff sleeps of any `withRetryGo` run from attempt index `i` form
an initial segment of the geometric sequence `d * 2 ^ i, d * 2 ^ (i+1), …`. -/
theorem sleepDurations_withRetryGo {α : Type} (op : Nat → Except Err α) (d : Nat) :
    ∀ n i le, ∃ k, sleepDurations (withRetryGo op d (idxList i n) le).1 =
      (List.range k).map (fun j => d * 2 ^ (i + j)) := by
  intro n
  induction n with
  | zero => intro i le; exact ⟨0, by simp [idxList, withRetryGo, sleepDurations]⟩
  | succ n ih =>
    intro i le
    cases hop : op i with
    | ok a => exact ⟨0, by simp [idxList, withRetryGo, hop, sleepDurations]⟩
    | error e =>
      by_cases ht : isTransientMsg e.message = true
      · obtain ⟨k, hk⟩ := ih (i + 1) (some e)
        refine ⟨k + 1, ?_⟩
        simp only [idxList, withRetryGo, hop, ht, if_true, sleepDurations]
        rw [hk, List.range_succ_eq_map, List.map_cons, List.map_map]
        have hfun : ((fun j => d * 2 ^ (i + j)) ∘ Nat.succ) =
            fun j => d * 2 ^ (i + 1 + j) := by
          funext j
          show d * 2 ^ (i + (j + 1)) = d * 2 ^ (i + 1 + j)
          have hadd : i + (j + 1) = i + 1 + j := by omega
          rw [hadd]
        rw [hfun]
        simp
      · exact ⟨0, by simp [idxList, withRetryGo, hop, ht, sleepDurations]⟩

/-- When every round yields a usable video, the geminiService.ts extension
loop performs exactly one continuation submission per planned round. -/
theorem countExt_gemini_extLoop (ext : Nat → Option Video)
    (h : ∀ i, (ext i).isSome = true) :
    ∀ n i cur, countExt (GeminiTs.extLoop ext (idxList i n) cur).1 = n := by
  intro n
  induction n with
  | zero => intro i cur; simp [idxList, GeminiTs.extLoop, countExt]
  | succ n ih =>
    intro i cur
    have hi := h i
    cases hx : ext i with
    | none => rw [hx] at hi; simp at hi
    | some v =>
      simp only [idxList, GeminiTs.extLoop, hx]
      rw [countExt_cons_progressExt, countExt_cons_submitExt, ih (i + 1) v]

/-- The part_004 extension loop always performs one continuation submission
per planned round, whatever the rounds yield. -/
theorem countExt_p4_extLoop (ext : Nat → Option Video) :
    ∀ n i cur, countExt (Part004.extLoop ext (idxList i n) cur).1 = n := by
  intro n
  induction n with
  | zero => intro i cur; simp [idxList, Part004.extLoop, countExt]
  | succ n ih =>
    intro i cur
    simp only [idxList, Part004.extLoop]
    rw [countExt_cons_progressExt, countExt_cons_submitExt, ih (i + 1) (ext i)]

/-- If every continuation round yields nothing, the part_004 extension loop
ends with `finalVideo` undefined (when at least one round ran). -/
theorem p4_extLoop_none (ext : Nat → Option Video) (h : ∀ i, ext i = none) :
    ∀ n i cur, (Part004.extLoop ext (idxList i n) cur).2 =
      if n = 0 then cur else none := by
  intro n
  induction n with
  | zero => intro i cur; simp [idxList, Part004.extLoop]
  | succ n ih =>
    intro i cur
    simp only [idxList, Part004.extLoop]
    rw [ih (i + 1) (ext i), h i]
    cases n <;> simp

/-- Every continuation submission of the geminiService.ts extension loop is
seeded with the result of the immediately preceding phase. -/
theorem gemini_extLoop_seed (env : Env) :
    ∀ n i cur, some cur = prevRes env i →
      ∀ j s r, PEv.submitExt j s r ∈ (GeminiTs.extLoop env.extResult (idxList i n) cur).1 →
        s = Seed.vid (prevRes env j) := by
  intro n
  induction n with
  | zero => intro i cur _ j s r hm; simp [idxList, GeminiTs.extLoop] at hm
  | succ n ih =>
    intro i cur hcur j s r hm
    cases hx : env.extResult i with
    | none =>
      simp only [idxList, GeminiTs.extLoop, hx, List.mem_cons, List.mem_singleton] at hm
      rcases hm with h1 | h2 | h3
      · exact absurd h1 (by simp)
      · obtain ⟨hj, hs, _⟩ := by simpa using h2
        rw [hs, hj, ← hcur]
      · exact absurd h3 (by simp)
    | some v =>
      simp only [idxList, GeminiTs.extLoop, hx, List.mem_cons] at hm
      rcases hm with h1 | h2 | h3
      · exact absurd h1 (by simp)
      · obtain ⟨hj, hs, _⟩ := by simpa using h2
        rw [hs, hj, ← hcur]
      · exact ih (i + 1) v (by simp [prevRes, hx]) j s r h3

/-- Every continuation submission of the part_004 extension loop is seeded
with the result of the immediately preceding phase. -/
theorem p4_extLoop_seed (env : Env) :
    ∀ n i cur, cur = prevRes env i →
      ∀ j s r, PEv.submitExt j s r ∈ (Part004.extLoop env.extResult (idxList i n) cur).1 →
        s = Seed.vid (prevRes env j) := by
  intro n
  induction n with
  | zero => intro i cur _ j s r hm; simp [idxList, Part004.extLoop] at hm
  | succ n ih =>
    intro i cur hcur j s r hm
    simp only [idxList, Part004.extLoop, List.mem_cons] at hm
    rcases hm with h1 | h2 | h3
    · exact absurd h1 (by simp)
    · obtain ⟨hj, hs, _⟩ := by simpa using h2
      rw [hs, hj, hcur]
    · exact ih (i + 1) (env.extResult i) (by simp [prevRes]) j s r h3

/-- Trace shape of the part_004 pipeline. -/
theorem p4_trace (p ref : String) (cfg : VideoConfig) (env : Env) :
    (Part004.generateVideoWithExtension p ref cfg env).1 =
      [PEv.progressStart,
          PEv.submitInitial (Seed.image (some (imageData004 ref))) cfg.resolution] ++
        (if 5 < cfg.targetDuration then
          PEv.progressExtNeeded ::
            (Part004.extLoop env.extResult (idxList 0 (Part004.rounds cfg.targetDuration))
              env.initResult).1
        else []) := by
  by_cases h5 : 5 < cfg.targetDuration <;>
    simp [Part004.generateVideoWithExtension, h5]

/-- Continuation-submission count of a full geminiService.ts run, reduced to
the extension loop. -/
theorem gemini_countExt (p ref : String) (cfg : VideoConfig) (env : Env) :
    countExt (GeminiTs.generateVideoWithExtension p ref cfg env).1 =
      (match env.initResult with
        | none => 0
        | some v0 =>
          if 7 < cfg.targetDuration ∧ cfg.resolution = Res.r720 then
            countExt (GeminiTs.extLoop env.extResult
              (idxList 0 (GeminiTs.extensionsNeeded cfg.targetDuration)) v0).1
          else 0) := by
  cases hi : env.initResult with
  | none => simp [GeminiTs.generateVideoWithExtension, hi, countExt]
  | some v0 =>
    by_cases hg : 7 < cfg.targetDuration ∧ cfg.resolution = Res.r720
    · simp only [GeminiTs.generateVideoWithExtension, hi, hg, if_true]
      split <;> simp [countExt_append, countExt, List.countP_cons]
    · simp only [GeminiTs.generateVideoWithExtension, hi, hg, if_false]
      split <;> simp [countExt_append, countExt, List.countP_cons]

/-- Any continuation submission of a geminiService.ts run comes from the
extension loop, and the initial phase succeeded. -/
theorem gemini_submitExt_mem (p ref : String) (cfg : VideoConfig) (env : Env)
    (j : Nat) (s : Seed) (r : Res)
    (hm : PEv.submitExt j s r ∈ (GeminiTs.generateVideoWithExtension p ref cfg env).1) :
    ∃ v0, env.initResult = some v0 ∧
      PEv.submitExt j s r ∈ (GeminiTs.extLoop env.extResult
        (idxList 0 (GeminiTs.extensionsNeeded cfg.targetDuration)) v0).1 := by
  cases hi : env.initResult with
  | none => simp [GeminiTs.generateVideoWithExtension, hi] at hm
  | some v0 =>
    refine ⟨v0, rfl, ?_⟩
    by_cases hg : 7 < cfg.targetDuration ∧ cfg.resolution = Res.r720
    · simp only [GeminiTs.generateVideoWithExtension, hi, hg, if_true] at hm
      split at hm <;> simpa using hm
    · simp only [GeminiTs.generateVideoWithExtension, hi, hg, if_false] at hm
      split at hm <;> simp at hm

/-- Any continuation submission of a part_004 run comes from its extension
loop. -/
theorem p4_submitExt_mem (p ref : String) (cfg : VideoConfig) (env : Env)
    (j : Nat) (s : Seed) (r : Res)
    (hm : PEv.submitExt j s r ∈ (Part004.generateVideoWithExtension p ref cfg env).1) :
    PEv.submitExt j s r ∈ (Part004.extLoop env.extResult
      (idxList 0 (Part004.rounds cfg.targetDuration)) env.initResult).1 := by
  rw [p4_trace] at hm
  by_cases h5 : 5 < cfg.targetDuration
  · simp only [h5, if_true] at hm
    simpa using hm
  · simp [h5] at hm

/-- Every geminiService.ts run begins with the start-progress emission
followed immediately by the initial network submission. -/
theorem gemini_trace_head (p ref : String) (cfg : VideoConfig) (env : Env) :
    ((GeminiTs.generateVideoWithExtension p ref cfg env).1).head? =
        some PEv.progressStart ∧
      ((GeminiTs.generateVideoWithExtension p ref cfg env).1).tail.head? =
        some (PEv.submitInitial (Seed.image (jsSplitComma1 ref)) cfg.resolution) := by
  cases hi : env.initResult with
  | none => simp [GeminiTs.generateVideoWithExtension, hi]
  | some v0 =>
    by_cases hg : 7 < cfg.targetDuration ∧ cfg.resolution = Res.r720
    · simp only [GeminiTs.generateVideoWithExtension, hi, hg, if_true]
      split <;> simp
    · simp only [GeminiTs.generateVideoWithExtension, hi, hg, if_false]
      split <;> simp

/-! Claim theorems. -/

/-- C4 (confirmed): `withRetry` classifies an error as transient — and hence
eligible for retry — iff its message contains one of the substrings "429",
"RESOURCE_EXHAUSTED", "500", "503" (first conjunct gives the
classification, third conjunct shows a transient error really is retried:
a second invocation occurs); any other error is fatal and is re-raised
verbatim immediately after the first failing attempt, with zero sleeps and
no further invocations (second conjunct: the whole trace is a single
invocation event). -/
theorem c4_transient_classification :
    (∀ msg, isTransientMsg msg = true ↔
      (strContains msg "429" = true ∨ strContains msg "RESOURCE_EXHAUSTED" = true ∨
        strContains msg "500" = true ∨ strContains msg "503" = true)) ∧
    (∀ (α : Type) (op : Nat → Except Err α) e, op 0 = Except.error e →
      isTransientMsg e.message = false →
      withRetry op = ([REv.invoke 0], Except.error e)) ∧
    (∀ (α : Type) (e : Err), isTransientMsg e.message = true →
      REv.invoke 1 ∈ (withRetry (fun _ => (Except.error e : Except Err α))).1) := by
  refine ⟨?_, ?_, ?_⟩
  · intro msg
    simp only [isTransientMsg, Bool.or_eq_true]
    tauto
  · intro α op e h0 ht
    have hidx : idxList 0 3 = [0, 1, 2] := rfl
    show withRetryGo op 2000 (idxList 0 3) none = _
    rw [hidx]
    simp [withRetryGo, h0, ht]
  · intro α e ht
    have hidx : idxList 0 3 = [0, 1, 2] := rfl
    show REv.invoke 1 ∈ (withRetryGo (fun _ => (Except.error e : Except Err α)) 2000
      (idxList 0 3) none).1
    rw [hidx]
    simp [withRetryGo, ht]

/-- C4 witness: a fatal error ("boom") is re-raised at once with a
single invocation and no sleeps; a transient error ("429") leads to a
second invocation. -/
theorem c4_transient_classification_witness :
    (withRetry (fun _ => (Except.error { message := "boom" } : Except Err Nat)) =
      ([REv.invoke 0], Except.error { message := "boom" })) ∧
    REv.invoke 1 ∈ (withRetry (fun _ => (Except.error { message := "429" } : Except Err Nat))).1 :=
  ⟨c4_transient_classification.2.1 Nat _ { message := "boom" } rfl (by decide),
   c4_transient_classification.2.2 Nat { message := "429" } (by decide)⟩

/-- C5 (confirmed): under the default policy (`maxRetries = 3`,
`initialDelay = 2000`) the sleeps of any run form the geometric sequence
`2000 * 2 ^ n` indexed by the 0-based retry number (first conjunct);
for an operation failing transiently twice then succeeding, `withRetry`
returns the success value having performed exactly the two sleeps
2000 ms and 4000 ms, the second twice the first (second conjunct). -/
theorem c5_backoff_delays :
    (∀ (α : Type) (op : Nat → Except Err α), ∃ k,
      sleepDurations (withRetry op).1 = (List.range k).map (fun n => 2000 * 2 ^ n)) ∧
    (∀ (α : Type) (op : Nat → Except Err α) e0 e1 v,
      op 0 = Except.error e0 → op 1 = Except.error e1 → op 2 = Except.ok v →
      isTransientMsg e0.message = true → isTransientMsg e1.message = true →
      withRetry op =
        ([REv.invoke 0, REv.sleep 2000, REv.invoke 1, REv.sleep 4000, REv.invoke 2],
          Except.ok v) ∧
      sleepDurations (withRetry op).1 = [2000, 4000] ∧ 4000 = 2 * 2000) := by
  constructor
  · intro α op
    obtain ⟨k, hk⟩ := sleepDurations_withRetryGo op 2000 3 0 none
    refine ⟨k, ?_⟩
    show sleepDurations (withRetryGo op 2000 (idxList 0 3) none).1 = _
    rw [hk]
    simp
  · intro α op e0 e1 v h0 h1 h2 ht0 ht1
    have hidx : idxList 0 3 = [0, 1, 2] := rfl
    have htr : withRetry op =
        ([REv.invoke 0, REv.sleep 2000, REv.invoke 1, REv.sleep 4000, REv.invoke 2],
          Except.ok v) := by
      show withRetryGo op 2000 (idxList 0 3) none = _
      rw [hidx]
      simp [withRetryGo, h0, h1, h2, ht0, ht1]
    refine ⟨htr, ?_, by norm_num⟩
    rw [htr]
    simp [sleepDurations]

/-- C5 witness: the concrete operation failing with "429" then "503" then
succeeding with 7 exhibits exactly the two sleeps 2000 ms and 4000 ms. -/
theorem c5_backoff_delays_witness :
    withRetry opW =
      ([REv.invoke 0, REv.sleep 2000, REv.invoke 1, REv.sleep 4000, REv.invoke 2],
        Except.ok 7) ∧
    sleepDurations (withRetry opW).1 = [2000, 4000] ∧ 4000 = 2 * 2000 :=
  c5_backoff_delays.2 Nat opW { message := "429" } { message := "503" } 7
    rfl rfl rfl (by decide) (by decide)

/-- C6 counterexample: the claim asserts no sleep occurs after the final,
exhausted attempt, i.e. an always-transiently-failing operation would sleep
only twice across its three attempts.  In fact `withRetry` on the constant
"429" failure produces three sleeps — the trace ends with an 8000 ms sleep
event after the third (final) invocation — before re-raising the last
error. -/
theorem c6_counterexample :
    withRetry opT =
      ([REv.invoke 0, REv.sleep 2000, REv.invoke 1, REv.sleep 4000, REv.invoke 2,
          REv.sleep 8000],
        Except.error { message := "429" }) ∧
    sleepDurations (withRetry opT).1 = [2000, 4000, 8000] := by
  constructor <;> rfl

/-- C6 (amended): when a transiently-failing operation never succeeds,
`withRetry` invokes it exactly `maxRetries = 3` times and then re-raises
the last error it observed; a backoff sleep follows every transient
failure including the final one, so the run performs three sleeps
(2000, 4000, 8000 ms), the last of them after the final, exhausted
attempt. -/
theorem c6_exhaustion_amended :
    ∀ (α : Type) (e : Nat → Err), (∀ i, isTransientMsg (e i).message = true) →
      withRetry (fun i => (Except.error (e i) : Except Err α)) =
        ([REv.invoke 0, REv.sleep 2000, REv.invoke 1, REv.sleep 4000, REv.invoke 2,
            REv.sleep 8000],
          Except.error (e 2)) ∧
      countInvokes (withRetry (fun i => (Except.error (e i) : Except Err α))).1 = 3 := by
  intro α e h
  have hidx : idxList 0 3 = [0, 1, 2] := rfl
  have htr : withRetry (fun i => (Except.error (e i) : Except Err α)) =
      ([REv.invoke 0, REv.sleep 2000, REv.invoke 1, REv.sleep 4000, REv.invoke 2,
          REv.sleep 8000],
        Except.error (e 2)) := by
    show withRetryGo (fun i => (Except.error (e i) : Except Err α)) 2000
      (idxList 0 3) none = _
    rw [hidx]
    simp [withRetryGo, h 0, h 1, h 2]
  refine ⟨htr, ?_⟩
  rw [htr]
  rfl

/-- C6 witness: the amended statement at the constant "429" failure. -/
theorem c6_exhaustion_amended_witness :
    withRetry (fun i => (Except.error ((fun _ => { message := "429" }) i) : Except Err Nat)) =
      ([REv.invoke 0, REv.sleep 2000, REv.invoke 1, REv.sleep 4000, REv.invoke 2,
          REv.sleep 8000],
        Except.error ((fun _ => ({ message := "429" } : Err)) 2)) ∧
    countInvokes (withRetry (fun i =>
      (Except.error ((fun _ => ({ message := "429" } : Err)) i) : Except Err Nat))).1 = 3 :=
  c6_exhaustion_amended Nat (fun _ => { message := "429" })
    (fun _ => by show isTransientMsg "429" = true; decide)

/-- C7 (confirmed): the job-polling loop sleeps a fixed 10-second interval
before each status check and repeats while the operation is not done; on a
status sequence reporting done=false twice (the submit result and the first
check) and then done=true, exactly two interval sleeps occur, each
immediately before a check, and the final operation is returned（first
conjunct）; every sleep the loop ever performs lasts 10000 ms (second
conjunct). -/
theorem c7_poll_sleeps :
    (∀ o0 o1 o2 : Operation, o0.done = false → o1.done = false → o2.done = true →
      pollLoop o0 [o1, o2] =
        ([PollEv.sleep 10000, PollEv.check, PollEv.sleep 10000, PollEv.check], o2)) ∧
    (∀ op checks d, PollEv.sleep d ∈ (pollLoop op checks).1 → d = 10000) := by
  constructor
  · intro o0 o1 o2 h0 h1 h2
    simp [pollLoop, h0, h1, h2]
  · intro op checks
    induction checks generalizing op with
    | nil =>
      intro d hm
      cases hd : op.done <;> simp [pollLoop, hd] at hm
    | cons c rest ih =>
      intro d hm
      cases hd : op.done with
      | true => simp [pollLoop, hd] at hm
      | false =>
        simp only [pollLoop, hd] at hm
        rcases (by simpa using hm :
            d = 10000 ∨ PollEv.sleep d ∈ (pollLoop c rest).1) with h | h
        · exact h
        · exact ih c d h

/-- C7 witness: a concrete status sequence false, false, true yields the
two-sleep trace. -/
theorem c7_poll_sleeps_witness :
    pollLoop { done := false, video := none }
        [{ done := false, video := none }, { done := true, video := some (vidW 0) }] =
      ([PollEv.sleep 10000, PollEv.check, PollEv.sleep 10000, PollEv.check],
        { done := true, video := some (vidW 0) }) :=
  c7_poll_sleeps.1 _ _ _ rfl rfl rfl

/-- C8 counterexample: in `src/unnamed/part_003` (and part_000) the
polling loop catches an error containing "Requested entity was not found"
and throws a fresh `Error("API_KEY_EXPIRED")` instead — the authorization
error reaches the caller rewrapped, not verbatim, contradicting the claim
that it always crosses the pipeline boundary unmodified. -/
theorem c8_counterexample :
    part003Poll { done := false, video := none }
        [Except.error { message := "Requested entity was not found" }] =
      some (Except.error { message := "API_KEY_EXPIRED" }) ∧
    ({ message := "API_KEY_EXPIRED" } : Err) ≠
      { message := "Requested entity was not found" } := by
  constructor
  · rfl
  · decide

/-- C8 (amended): an authorization error (message containing "Requested
entity was not found") is never retried by `withRetry` — it is re-raised
verbatim after a single invocation with zero sleeps (first conjunct, so in
the `generateVideoWithExtension` pipelines, which install no handler for
it, it reaches the caller unmodified); but in the `generateVideo` poll loop
of part_003/part_000 such an error is rewrapped as `Error("API_KEY_EXPIRED")`
before crossing the boundary (second conjunct). -/
theorem c8_auth_error_amended :
    (∀ (α : Type) (op : Nat → Except Err α) e, op 0 = Except.error e →
      strContains e.message "Requested entity was not found" = true →
      isTransientMsg e.message = false →
      withRetry op = ([REv.invoke 0], Except.error e)) ∧
    (∀ (init : Operation) e rest, init.done = false →
      strContains e.message "Requested entity was not found" = true →
      part003Poll init (Except.error e :: rest) =
        some (Except.error { message := "API_KEY_EXPIRED" })) := by
  constructor
  · intro α op e h0 _ ht
    have hidx : idxList 0 3 = [0, 1, 2] := rfl
    show withRetryGo op 2000 (idxList 0 3) none = _
    rw [hidx]
    simp [withRetryGo, h0, ht]
  · intro init e rest hd hmsg
    simp [part003Poll, hd, hmsg]

/-- C8 witness: the literal auth error is re-raised by `withRetry` untouched
after one attempt, and rewrapped by the part_003 poll loop. -/
theorem c8_auth_error_amended_witness :
    (withRetry (fun _ =>
        (Except.error { message := "Requested entity was not found" } : Except Err Nat)) =
      ([REv.invoke 0], Except.error { message := "Requested entity was not found" })) ∧
    part003Poll { done := false, video := none }
        (Except.error { message := "Requested entity was not found" } :: []) =
      some (Except.error { message := "API_KEY_EXPIRED" }) :=
  ⟨c8_auth_error_amended.1 Nat _ { message := "Requested entity was not found" }
      rfl (by decide) (by decide),
   c8_auth_error_amended.2 { done := false, video := none }
      { message := "Requested entity was not found" } [] rfl (by decide)⟩

/-- C1 counterexample: the claim's round formula fails on the
geminiService.ts variant.  At `targetDuration = 13` (which exceeds the base
duration 5) with resolution 720p and every round usable, the run performs
exactly 1 continuation round, whereas `ceil((13 - 5) / 7) = 2` (the part_004
round computation, shown in the second conjunct). -/
theorem c1_counterexample :
    countExt (GeminiTs.generateVideoWithExtension "p" "r" (cfg720 13) envAllOk).1 = 1 ∧
    Part004.rounds 13 = 2 := by
  constructor <;> rfl

/-- C1 (amended): the two pipeline variants compute rounds differently.
The part_004 variant performs exactly `ceil((targetDuration - 5) / 7)`
continuation rounds whenever `targetDuration > 5` and zero rounds otherwise
(first conjunct; `Part004.rounds` is that ceiling by the second conjunct,
with the claim's examples 5→0, 12→1, 13→2, 19→2 in the third).  The
geminiService.ts variant instead enters its loop only when
`targetDuration > 7` and the resolution is 720p, performing
`floor((targetDuration - 5) / 7)` rounds when every round yields a usable
result, and zero rounds otherwise (fourth conjunct). -/
theorem c1_rounds_amended :
    (∀ p ref cfg env,
      countExt (Part004.generateVideoWithExtension p ref cfg env).1 =
        if 5 < cfg.targetDuration then Part004.rounds cfg.targetDuration else 0) ∧
    (∀ t, 5 < t → t - 5 ≤ 7 * Part004.rounds t ∧ 7 * (Part004.rounds t - 1) < t - 5) ∧
    (Part004.rounds 5 = 0 ∧ Part004.rounds 12 = 1 ∧ Part004.rounds 13 = 2 ∧
      Part004.rounds 19 = 2) ∧
    (∀ p ref cfg env, (env.initResult).isSome = true →
      (∀ i, (env.extResult i).isSome = true) →
      countExt (GeminiTs.generateVideoWithExtension p ref cfg env).1 =
        if 7 < cfg.targetDuration ∧ cfg.resolution = Res.r720 then
          GeminiTs.extensionsNeeded cfg.targetDuration
        else 0) := by
  refine ⟨?_, ?_, by decide, ?_⟩
  · intro p ref cfg env
    rw [p4_trace, countExt_append]
    by_cases h5 : 5 < cfg.targetDuration
    · simp only [h5, if_true]
      rw [countExt_cons_progressExtNeeded, countExt_p4_extLoop]
      simp [countExt, List.countP_cons]
    · simp [h5, countExt]
  · intro t ht
    unfold Part004.rounds
    omega
  · intro p ref cfg env hinit hext
    obtain ⟨v0, hi⟩ := Option.isSome_iff_exists.mp hinit
    rw [gemini_countExt, hi]
    by_cases hg : 7 < cfg.targetDuration ∧ cfg.resolution = Res.r720 <;>
      simp [hg, countExt_gemini_extLoop env.extResult hext]

/-- C1 witness: both variants at concrete inputs (part_004 at 13 s, the
ceiling bounds and examples at 13, geminiService.ts at 19 s with all rounds
usable). -/
theorem c1_rounds_amended_witness :
    countExt (Part004.generateVideoWithExtension "p" "r" (cfg720 13) envAllOk).1 =
        (if 5 < (cfg720 13).targetDuration then Part004.rounds (cfg720 13).targetDuration
          else 0) ∧
      (13 - 5 ≤ 7 * Part004.rounds 13 ∧ 7 * (Part004.rounds 13 - 1) < 13 - 5) ∧
      countExt (GeminiTs.generateVideoWithExtension "p" "r" (cfg720 19) envAllOk).1 =
        (if 7 < (cfg720 19).targetDuration ∧ (cfg720 19).resolution = Res.r720 then
          GeminiTs.extensionsNeeded (cfg720 19).targetDuration
        else 0) :=
  ⟨c1_rounds_amended.1 "p" "r" (cfg720 13) envAllOk,
   c1_rounds_amended.2.1 13 (by decide),
   c1_rounds_amended.2.2.2 "p" "r" (cfg720 19) envAllOk rfl (fun i => rfl)⟩

/-- C2 counterexample: in the part_004 variant, a run whose initial phase
succeeded (with a usable link "u") but whose single continuation round
yields no usable result does NOT return the initial artifact — it raises
"Video generation failed: Operation returned empty result." instead,
contradicting the claimed stop-and-return-best behaviour. -/
theorem c2_counterexample :
    (Part004.generateVideoWithExtension "p" "r" (cfg720 12) envExtFail).2 =
      Except.error { message := "Video generation failed: Operation returned empty result." } ∧
    envExtFail.initResult = some (vidW 0) ∧ (vidW 0).uri = some "u" := by
  refine ⟨?_, rfl, rfl⟩
  rfl

/-- C2 (amended): the stop-and-return-best (partial success) policy holds
for the geminiService.ts variant only: there, a continuation round that
completes without a usable result stops the loop after that single round
and the run returns the previous phase's artifact (first conjunct).  In
the part_004 variant a failed round neither stops the loop — all planned
rounds are still submitted — nor preserves the earlier artifact: the run
raises at the end (second conjunct). -/
theorem c2_partial_success_amended :
    (∀ p ref cfg env v0 u, env.initResult = some v0 → v0.uri = some u →
      env.extResult 0 = none →
      7 < cfg.targetDuration → cfg.resolution = Res.r720 →
      0 < GeminiTs.extensionsNeeded cfg.targetDuration →
      (GeminiTs.generateVideoWithExtension p ref cfg env).2 = Except.ok u ∧
        countExt (GeminiTs.generateVideoWithExtension p ref cfg env).1 = 1) ∧
    (∀ p ref cfg env, (∀ i, env.extResult i = none) → 5 < cfg.targetDuration →
      (Part004.generateVideoWithExtension p ref cfg env).2 =
          Except.error
            { message := "Video generation failed: Operation returned empty result." } ∧
        countExt (Part004.generateVideoWithExtension p ref cfg env).1 =
          Part004.rounds cfg.targetDuration) := by
  constructor
  · intro p ref cfg env v0 u hi hu h0 hgt hres hpos
    have hg : 7 < cfg.targetDuration ∧ cfg.resolution = Res.r720 := ⟨hgt, hres⟩
    obtain ⟨k, hk⟩ : ∃ k, GeminiTs.extensionsNeeded cfg.targetDuration = k + 1 :=
      ⟨GeminiTs.extensionsNeeded cfg.targetDuration - 1, by omega⟩
    have hloop : GeminiTs.extLoop env.extResult
        (idxList 0 (GeminiTs.extensionsNeeded cfg.targetDuration)) v0 =
        ([PEv.progressExt 0, PEv.submitExt 0 (Seed.vid (some v0)) Res.r720], v0) := by
      rw [hk]
      simp [idxList, GeminiTs.extLoop, h0]
    constructor
    · simp [GeminiTs.generateVideoWithExtension, hi, hg, hloop, hu]
    · rw [gemini_countExt, hi]
      simp [hg, hloop, countExt, List.countP_cons]
  · intro p ref cfg env hnone h5
    have hrne : Part004.rounds cfg.targetDuration ≠ 0 := by
      unfold Part004.rounds
      omega
    have hr : (Part004.extLoop env.extResult
        (idxList 0 (Part004.rounds cfg.targetDuration)) env.initResult).2 = none := by
      rw [p4_extLoop_none env.extResult hnone]
      simp [hrne]
    constructor
    · simp only [Part004.generateVideoWithExtension, h5, if_true, hr]
    · rw [p4_trace, countExt_append]
      simp only [h5, if_true]
      rw [countExt_cons_progressExtNeeded, countExt_p4_extLoop]
      simp [countExt, List.countP_cons]

/-- C2 witness: both conjuncts at `targetDuration = 12` with a usable
initial artifact and a failing continuation round. -/
theorem c2_partial_success_amended_witness :
    ((GeminiTs.generateVideoWithExtension "p" "r" (cfg720 12) envExtFail).2 =
        Except.ok "u" ∧
      countExt (GeminiTs.generateVideoWithExtension "p" "r" (cfg720 12) envExtFail).1 = 1) ∧
    ((Part004.generateVideoWithExtension "p" "r" (cfg720 12) envExtFail).2 =
        Except.error
          { message := "Video generation failed: Operation returned empty result." } ∧
      countExt (Part004.generateVideoWithExtension "p" "r" (cfg720 12) envExtFail).1 =
        Part004.rounds (cfg720 12).targetDuration) :=
  ⟨c2_partial_success_amended.1 "p" "r" (cfg720 12) envExtFail (vidW 0) "u"
      rfl rfl rfl (by decide) rfl (by decide),
   c2_partial_success_amended.2 "p" "r" (cfg720 12) envExtFail (fun i => rfl) (by decide)⟩

/-- C3 (confirmed): in both pipeline variants, every continuation round `i`
is seeded with exactly the result produced by the preceding phase (the
initial phase for round 0, round `i-1` otherwise) — and never with the
original seed artifact, the reference image supplied to the run. -/
theorem c3_seed_chain :
    ∀ p ref cfg env j s r,
      (PEv.submitExt j s r ∈ (GeminiTs.generateVideoWithExtension p ref cfg env).1 →
        s = Seed.vid (prevRes env j) ∧ s ≠ Seed.image (jsSplitComma1 ref)) ∧
      (PEv.submitExt j s r ∈ (Part004.generateVideoWithExtension p ref cfg env).1 →
        s = Seed.vid (prevRes env j) ∧ s ≠ Seed.image (some (imageData004 ref))) := by
  intro p ref cfg env j s r
  constructor
  · intro hm
    obtain ⟨v0, hi, hm2⟩ := gemini_submitExt_mem p ref cfg env j s r hm
    have hs := gemini_extLoop_seed env (GeminiTs.extensionsNeeded cfg.targetDuration)
      0 v0 (by rw [prevRes]; exact hi.symm) j s r hm2
    exact ⟨hs, by rw [hs]; simp⟩
  · intro hm
    have hm2 := p4_submitExt_mem p ref cfg env j s r hm
    have hs := p4_extLoop_seed env (Part004.rounds cfg.targetDuration)
      0 env.initResult (by rw [prevRes]) j s r hm2
    exact ⟨hs, by rw [hs]; simp⟩

/-- C3 witness: in the concrete 19-second geminiService.ts run, round 1's
submission is found in the trace and is seeded with round 0's result. -/
theorem c3_seed_chain_witness :
    Seed.vid (some (vidW 1)) = Seed.vid (prevRes envAllOk 1) ∧
      Seed.vid (some (vidW 1)) ≠ Seed.image (jsSplitComma1 "r") :=
  (c3_seed_chain "p" "r" (cfg720 19) envAllOk 1 (Seed.vid (some (vidW 1))) Res.r720).1
    (by decide)

/-- C9 counterexample: invoked directly with an empty instruction and an
empty seed artifact, `generateVideoWithExtension` raises no validation
error at all: its trace opens with the initial network submission (seeded
with the undefined `split(',')[1]` of the empty string) and, with a usable
remote result, the run even succeeds. -/
theorem c9_counterexample :
    GeminiTs.generateVideoWithExtension "" "" (cfg1080 5) envExtFail =
      ([PEv.progressStart, PEv.submitInitial (Seed.image none) Res.r1080,
          PEv.progressDispatch],
        Except.ok "u") := by
  rfl

/-- C9 (amended): the empty-input check lives in the UI caller, not in the
pipeline: `handleGenerateImage` rejects an undefined or empty prompt by
setting a user-facing error and returning without invoking the generation
service (first conjunct); the pipeline itself performs no validation —
called with empty instruction and empty seed it still begins with the
progress emission immediately followed by the initial network submission
(second conjunct). -/
theorem c9_validation_amended :
    (∀ ep idx imgs, (List.get? ep idx).getD "" = "" →
      handleGenerateImage ep idx imgs = UIOutcome.errorSet "提示词内容不能为空") ∧
    (∀ cfg env,
      ((GeminiTs.generateVideoWithExtension "" "" cfg env).1).head? =
          some PEv.progressStart ∧
        ((GeminiTs.generateVideoWithExtension "" "" cfg env).1).tail.head? =
          some (PEv.submitInitial (Seed.image none) cfg.resolution)) := by
  constructor
  · intro ep idx imgs h
    simp only [List.get?_eq_getElem?] at h
    simp [handleGenerateImage, h]
  · intro cfg env
    have h := gemini_trace_head "" "" cfg env
    simpa using h

/-- C9 witness: the guard at an empty prompt list entry, and the pipeline
head events at a concrete config and environment. -/
theorem c9_validation_amended_witness :
    handleGenerateImage ["", "x"] 0 [] = UIOutcome.errorSet "提示词内容不能为空" ∧
      ((GeminiTs.generateVideoWithExtension "" "" (cfg1080 5) envExtFail).1).head? =
        some PEv.progressStart ∧
      ((GeminiTs.generateVideoWithExtension "" "" (cfg1080 5) envExtFail).1).tail.head? =
        some (PEv.submitInitial (Seed.image none) (cfg1080 5).resolution) :=
  ⟨c9_validation_amended.1 ["", "x"] 0 [] rfl,
   c9_validation_amended.2 (cfg1080 5) envExtFail⟩

/-- C10 (confirmed): in geminiService.ts, a 1080p run performs zero
continuation rounds regardless of `targetDuration` and returns the initial
phase's artifact alone (first conjunct); conversely the extension loop is
entered only when the requested resolution is 720p and `targetDuration`
exceeds 7 (second conjunct). -/
theorem c10_resolution_gate :
    (∀ p ref aspect t env v0 u, env.initResult = some v0 → v0.uri = some u →
      countExt (GeminiTs.generateVideoWithExtension p ref
          { resolution := Res.r1080, aspectRatio := aspect, targetDuration := t } env).1 = 0 ∧
      (GeminiTs.generateVideoWithExtension p ref
          { resolution := Res.r1080, aspectRatio := aspect, targetDuration := t } env).2 =
        Except.ok u) ∧
    (∀ p ref cfg env, 0 < countExt (GeminiTs.generateVideoWithExtension p ref cfg env).1 →
      cfg.resolution = Res.r720 ∧ 7 < cfg.targetDuration) := by
  constructor
  · intro p ref aspect t env v0 u hi hu
    have hg : ¬(7 < t ∧ Res.r1080 = Res.r720) := by simp
    constructor
    · rw [gemini_countExt, hi]
      simp [hg]
    · simp only [GeminiTs.generateVideoWithExtension, hi]
      simp [hg, hu]
  · intro p ref cfg env hpos
    by_cases hg : 7 < cfg.targetDuration ∧ cfg.resolution = Res.r720
    · exact ⟨hg.2, hg.1⟩
    · exfalso
      rw [gemini_countExt] at hpos
      cases hi : env.initResult with
      | none => rw [hi] at hpos; simp at hpos
      | some v0 => rw [hi] at hpos; simp [hg] at hpos

/-- C10 witness: a concrete 1080p run at 19 s stays at zero rounds and
returns the initial artifact, and a run that did extend was a 720p run with
duration above 7. -/
theorem c10_resolution_gate_witness :
    (countExt (GeminiTs.generateVideoWithExtension "p" "r"
          { resolution := Res.r1080, aspectRatio := AR.a169, targetDuration := 19 }
          envAllOk).1 = 0 ∧
      (GeminiTs.generateVideoWithExtension "p" "r"
          { resolution := Res.r1080, aspectRatio := AR.a169, targetDuration := 19 }
          envAllOk).2 = Except.ok "u") ∧
    ((cfg720 12).resolution = Res.r720 ∧ 7 < (cfg720 12).targetDuration) :=
  ⟨c10_resolution_gate.1 "p" "r" AR.a169 19 envAllOk (vidW 0) "u" rfl rfl,
   c10_resolution_gate.2 "p" "r" (cfg720 12) envAllOk (by decide)⟩
